import Mathlib

/-!
Verification development for `arcade/cli/model_client_wrapper.py`.

The module is sequential glue around three external capabilities (a
model-completion endpoint, an authorization-polling mechanism, and a terminal
renderer).  We embed it shallowly: conversation turns are records, the
in-place mutation of the caller's `history` list is made explicit by
returning the post-call history, and every externally visible effect
(console rendering, browser launching, completion requests issued) is
recorded in an explicit event log.  Fallible steps return `Except`-style
outcomes carrying the history as it stood when the error was raised, so
that error-path claims about mutation can be stated.

Helpers imported from `arcade.cli.utils` (`get_tool_messages`,
`get_tool_authorization`, `handle_streaming_content`, `markdownify_urls`,
`wait_for_authorization_completion`) are not part of the sources; they are
modelled from the spec, each with a doc comment saying so.
-/

deriving instance DecidableEq for Except

namespace ArcadeCli

/-- A conversation turn: a mapping with `role` and `content`
(`{"role": role, "content": message_content}` in the source). -/
structure Message where
  role : String
  content : String
deriving DecidableEq, Repr

/-- `AuthorizationResponse` from `arcadepy.types` as used by the source:
only its `url` attribute is read (`tool_authorization.url`), which may be
absent (`None`). -/
structure AuthorizationResponse where
  url : Option String
deriving DecidableEq, Repr

/-- The `@dataclass ChatInteractionResult(history, tool_messages,
tool_authorization)` from the source. -/
structure ChatInteractionResult where
  history : List Message
  tool_messages : List Message
  tool_authorization : Option AuthorizationResponse
deriving DecidableEq, Repr

/-- `message` of a completion choice: `role` and `content`, where `content`
may be `None` (the source writes `response.choices[0].message.content or ""`). -/
structure ChoiceMessage where
  role : String
  content : Option String
deriving DecidableEq, Repr

/-- One element of `response.choices`.  Besides `message`, the source reads
tool metadata off the choice through `get_tool_messages` and
`get_tool_authorization` (from `arcade.cli.utils`, not in the sources); per
the spec the response carries "tool metadata", so the choice carries the
tool-originated turns and the optional authorization payload as fields. -/
structure Choice where
  message : ChoiceMessage
  tool_message_data : List Message
  tool_authorization_data : Option AuthorizationResponse
deriving DecidableEq, Repr

/-- A non-streamed completion response: `{choices: [...]}`. -/
structure CompletionResponse where
  choices : List Choice
deriving DecidableEq, Repr

/-- Modelled from the spec: a streamed completion response is "an
incremental sequence of partial-message fragments terminating in a final
aggregated message", with the same side-channel tool metadata as the
non-streamed form. -/
structure StreamResponse where
  role : String
  fragments : List String
  tool_message_data : List Message
  tool_authorization_data : Option AuthorizationResponse
deriving DecidableEq, Repr

/-- The value returned by `handle_streaming_content`: the source reads
`.role`, `.full_message`, `.tool_messages` and `.tool_authorization` off it. -/
structure StreamingResult where
  role : String
  full_message : String
  tool_messages : List Message
  tool_authorization : Option AuthorizationResponse
deriving DecidableEq, Repr

/-- The keyword arguments of `client.chat.completions.create(model=...,
messages=..., tool_choice="generate", user=..., stream=...)`. -/
structure CompletionRequest where
  model : String
  messages : List Message
  tool_choice : String
  user : Option String
  stream : Bool
deriving DecidableEq, Repr

/-- The completion capability a bound `client` name would provide: issuing a
request with `stream=False` yields a `CompletionResponse`, with `stream=True`
a `StreamResponse`; either call may fail (network/auth/rate-limit), which the
source does not catch. -/
structure ClientCapability where
  complete : CompletionRequest → Except String CompletionResponse
  completeStream : CompletionRequest → Except String StreamResponse

/-- Events written to the terminal rendering sink (the module-global
`console` and the `Live` region of `handle_tool_authorization`). -/
inductive SinkEvent where
  | printAssistant (model : String) (content : String)
  | printOther (role : String) (content : String)
  | streamFragment (model : String) (fragment : String)
  | liveMarkdown (message : String)
  | liveText (message : String)
deriving DecidableEq, Repr

/-- Errors an interaction can raise: an unresolvable name (`NameError`), an
out-of-range index (`response.choices[0]` on no choices, `history.pop()` on
an empty list), or an error propagated from an external capability. -/
inductive PyError where
  | nameError (name : String)
  | indexError
  | capabilityError (msg : String)
deriving DecidableEq, Repr

/-- The observable outcome of one handler call: the returned value or the
raised error, the caller's `history` list as it stands after the call
(mutation is visible to the caller even on an error path), the rendering
events emitted, the completion requests issued, and the URLs opened in the
browser. -/
structure InteractionOutcome where
  result : Except PyError ChatInteractionResult
  history : List Message
  sink : List SinkEvent
  requests : List CompletionRequest
  browser : List String
deriving Repr

/-- Modelled from the spec: `get_tool_messages` from `arcade.cli.utils` is
not in the sources.  Per the spec, `tool_messages` are the "turns injected
by tool execution prior to the assistant's final reply", read off the
response choice's tool metadata. -/
def get_tool_messages (c : Choice) : List Message :=
  c.tool_message_data

/-- Modelled from the spec: `get_tool_authorization` from
`arcade.cli.utils` is not in the sources.  Per the spec it extracts the
optional authorization payload that "signals the exchange is incomplete
pending user action" from the response choice's tool metadata. -/
def get_tool_authorization (c : Choice) : Option AuthorizationResponse :=
  c.tool_authorization_data

/-- Split a character sequence at spaces (empty runs kept), the word
boundary used by `markdownify_urls` below. -/
def splitOnSpace : List Char → List (List Char)
  | [] => [[]]
  | c :: cs =>
    if c = ' ' then [] :: splitOnSpace cs
    else
      match splitOnSpace cs with
      | [] => [[c]]
      | w :: ws => (c :: w) :: ws

/-- Interleave the words of a list with single spaces. -/
def joinWithSpace : List (List Char) → List Char
  | [] => []
  | [w] => w
  | w :: ws => w ++ ' ' :: joinWithSpace ws

/-- Modelled from the spec: `markdownify_urls` from `arcade.cli.utils` is
not in the sources.  Per the spec, assistant replies are rendered "with
inline links normalized": a bare URL is rewritten into markdown link
syntax (`[url](url)`), and text without bare URLs is left unchanged. -/
def markdownify_urls (s : String) : String :=
  String.mk (joinWithSpace ((splitOnSpace s.toList).map fun w =>
    if List.isPrefixOf "http://".toList w || List.isPrefixOf "https://".toList w then
      '[' :: w ++ ']' :: '(' :: w ++ [')']
    else w))

/-- Modelled from the spec: `handle_streaming_content` from
`arcade.cli.utils` is not in the sources.  Per the spec the streamed mode
consumes "the response incrementally, accumulating assistant text and any
tool-call/authorization side-channel data as it arrives; rendering happens
progressively", terminating in the final aggregated message.  It returns
the aggregate and the progressive rendering events. -/
def handle_streaming_content (resp : StreamResponse) (model : String) :
    StreamingResult × List SinkEvent :=
  (⟨resp.role, String.join resp.fragments, resp.tool_message_data,
    resp.tool_authorization_data⟩,
   resp.fragments.map (SinkEvent.streamFragment model))

/-- Python truthiness of the optional authorization payload, as tested by
`if role == "assistant" and tool_authorization:`. -/
def truthyAuth (a : Option AuthorizationResponse) : Bool :=
  a.isSome

/-- The names bound at the top level of the module: the imports, the
module-global `console`, and the two top-level definitions. -/
def moduleGlobals : List String :=
  ["webbrowser", "Any", "Optional", "dataclass", "Arcade",
   "AuthorizationResponse", "OpenAI", "Console", "Live", "Markdown", "Text",
   "get_tool_authorization", "get_tool_messages", "handle_streaming_content",
   "markdownify_urls", "wait_for_authorization_completion",
   "console", "ChatInteractionResult", "ModelClientWrapper"]

/-- The local names of `handle_chat_interaction`: its parameters and every
name the body assigns. -/
def handleChatInteractionLocals : List String :=
  ["self", "model", "history", "user_email", "stream",
   "response", "streaming_result", "role", "message_content",
   "tool_messages", "tool_authorization"]

/-- A representative list of Python builtins (the name `client` is not a
builtin). -/
def pythonBuiltins : List String :=
  ["print", "len", "str", "int", "float", "bool", "list", "dict", "set",
   "tuple", "range", "type", "isinstance", "getattr", "setattr", "hasattr",
   "ValueError", "TypeError", "NameError", "IndexError", "KeyError",
   "Exception", "None", "True", "False"]

/-- Python name resolution inside the body of `handle_chat_interaction`:
a name resolves iff it is a local, a module global, or a builtin; otherwise
evaluating it raises `NameError`. -/
def resolvesInHandleChatInteraction (n : String) : Bool :=
  handleChatInteractionLocals.contains n || moduleGlobals.contains n ||
    pythonBuiltins.contains n

/-- The binding of the free name `client` read by `handle_chat_interaction`
(lines 82 and 96 of the source).  The module binds no such name
(`moduleGlobals`), so in the module as written this is `none`; a hypothetical
environment in which the name resolves to a completion client is `some cap`. -/
def moduleClientBinding : Option ClientCapability :=
  none

/-- `ModelClientWrapper.handle_chat_interaction(self, model, history,
user_email, stream=False)`, shallowly embedded.  The first parameter is the
binding of the free name `client`: evaluating `client.chat.completions.create`
first resolves that name, and raises `NameError` before issuing any request
or touching `history` when it is unbound (as in the module itself, see
`moduleClientBinding`). -/
def handle_chat_interaction (clientBinding : Option ClientCapability)
    (model : String) (history : List Message) (user_email : Option String)
    (stream : Bool) : InteractionOutcome :=
  match clientBinding with
  | none => ⟨.error (.nameError "client"), history, [], [], []⟩
  | some client =>
    if stream then
      let req : CompletionRequest := ⟨model, history, "generate", user_email, true⟩
      match client.completeStream req with
      | .error e => ⟨.error (.capabilityError e), history, [], [req], []⟩
      | .ok response =>
        let sr := (handle_streaming_content response model).1
        let events := (handle_streaming_content response model).2
        let role := sr.role
        let message_content := sr.full_message
        let tool_messages := sr.tool_messages
        let tool_authorization := sr.tool_authorization
        let history2 := history ++ tool_messages ++ [⟨role, message_content⟩]
        ⟨.ok ⟨history2, tool_messages, tool_authorization⟩, history2, events,
         [req], []⟩
    else
      let req : CompletionRequest := ⟨model, history, "generate", user_email, false⟩
      match client.complete req with
      | .error e => ⟨.error (.capabilityError e), history, [], [req], []⟩
      | .ok response =>
        match response.choices.head? with
        | none => ⟨.error .indexError, history, [], [req], []⟩
        | some choice0 =>
          let message_content := choice0.message.content.getD ""
          let tool_messages := get_tool_messages choice0
          let tool_authorization := get_tool_authorization choice0
          let role := choice0.message.role
          let rendered :=
            if role == "assistant" && truthyAuth tool_authorization then
              (message_content, ([] : List SinkEvent))
            else if role == "assistant" then
              let md := markdownify_urls message_content
              (md, [SinkEvent.printAssistant model md])
            else
              (message_content, [SinkEvent.printOther role message_content])
          let history2 := history ++ tool_messages ++ [⟨role, rendered.1⟩]
          ⟨.ok ⟨history2, tool_messages, tool_authorization⟩, history2,
           rendered.2, [req], []⟩

/-- The text of the authorization status message up to the clickable link. -/
def authUrlMsgHead : String :=
  "You will need to authorize this action in your browser.\n\n" ++
    "If a browser does not open automatically, click "

/-- The text of the authorization status message between the clickable link
and the trailing plain URL. -/
def authUrlMsgMid : String :=
  " or copy this URL and paste it into your browser:\n\n"

/-- The status message of `handle_tool_authorization` when the request
carries a URL: the URL appears once as a markdown link and once as plain
text to copy (apostrophes of the source text elided). -/
def authUrlMessage (authorization_url : String) : String :=
  authUrlMsgHead ++ ("[this link](" ++ authorization_url ++ ")") ++
    authUrlMsgMid ++ authorization_url

/-- The confirmation message displayed after the authorization resolves. -/
def authDoneMessage : String :=
  "Thanks for authorizing the action! Sending your request..."

/-- `ModelClientWrapper.handle_tool_authorization`, shallowly embedded.
`wait` is the outcome of the external blocking call
`wait_for_authorization_completion(arcade_client, tool_authorization)`
(from `arcade.cli.utils`, not in the sources; per the spec it blocks until
the authorization is resolved and may fail).  `clientBinding` is passed on
to the re-invoked `handle_chat_interaction`. -/
def handle_tool_authorization (clientBinding : Option ClientCapability)
    (wait : Except String Unit) (tool_authorization : AuthorizationResponse)
    (history : List Message) (model : String) (user_email : Option String)
    (stream : Bool) : InteractionOutcome :=
  let urlEffects : List String × List SinkEvent :=
    match tool_authorization.url with
    | some u =>
      if u == "" then ([], [])
      else ([u], [SinkEvent.liveMarkdown (authUrlMessage u)])
    | none => ([], [])
  match wait with
  | .error e =>
    ⟨.error (.capabilityError e), history, urlEffects.2, [], urlEffects.1⟩
  | .ok _ =>
    let sink1 := urlEffects.2 ++ [SinkEvent.liveText authDoneMessage]
    if history.isEmpty then
      ⟨.error .indexError, history, sink1, [], urlEffects.1⟩
    else
      let popped := history.dropLast
      let inner := handle_chat_interaction clientBinding model popped user_email stream
      ⟨inner.result, inner.history, sink1 ++ inner.sink, inner.requests,
       urlEffects.1 ++ inner.browser⟩

/-- Python `str.lower()`, character-wise (as applied to `client_type`). -/
def pyLower (s : String) : String :=
  String.mk (s.toList.map Char.toLower)

/-- `base_url or "https://api.openai.com/v1"`: Python `or` falls back on a
falsy left operand, i.e. on `None` and on the empty string. -/
def resolveBaseUrl : Option String → String
  | none => "https://api.openai.com/v1"
  | some s => if s == "" then "https://api.openai.com/v1" else s

/-- The string returned by the `_create_anthropic_client` placeholder. -/
def anthropicPlaceholder : String :=
  "Anthropic client initialization goes here"

/-- The value stored in `self.client`: a real OpenAI client constructed from
the key and base URL, or the placeholder string returned by
`_create_anthropic_client`. -/
inductive ClientField where
  | openaiClient (api_key : String) (base_url : String)
  | placeholderString (s : String)
deriving DecidableEq, Repr

/-- The attributes a successfully constructed `ModelClientWrapper` holds. -/
structure ModelClientWrapperState where
  api_key : String
  base_url : String
  client_type : String
  client : ClientField
deriving DecidableEq, Repr

/-- `ModelClientWrapper.__init__(api_key, base_url=None, client_type="openai")`,
shallowly embedded: construction either yields the attribute record or
raises `ValueError` with the message of line 37. -/
def ModelClientWrapper.init (api_key : String) (base_url : Option String)
    (client_type : String) : Except String ModelClientWrapperState :=
  let base := resolveBaseUrl base_url
  let ct := pyLower client_type
  if ct == "openai" then
    .ok ⟨api_key, base, ct, .openaiClient api_key base⟩
  else if ct == "anthropic" then
    .ok ⟨api_key, base, ct, .placeholderString anthropicPlaceholder⟩
  else
    .error ("Unknown client type: " ++ ct)

/-- A completion client that always fails with a rate-limit error. -/
def failingCap : ClientCapability where
  complete := fun _ => .error "rate limited"
  completeStream := fun _ => .error "rate limited"

/-- A completion client mocking the spec's example reply
`{role: assistant, content: "hello"}` with no tools. -/
def helloReplyCap : ClientCapability where
  complete := fun _ => .ok ⟨[⟨⟨"assistant", some "hello"⟩, [], none⟩]⟩
  completeStream := fun _ => .error "stream not mocked"

/-- A completion client whose mocked assistant reply contains a bare URL. -/
def urlReplyCap : ClientCapability where
  complete := fun _ => .ok ⟨[⟨⟨"assistant", some "see https://a.b"⟩, [], none⟩]⟩
  completeStream := fun _ => .error "stream not mocked"

/-- A completion client whose mocked assistant reply carries an
authorization payload (an authorization URL to visit). -/
def authReplyCap : ClientCapability where
  complete := fun _ =>
    .ok ⟨[⟨⟨"assistant", some "auth needed"⟩, [],
      some ⟨some "https://auth.example/approve"⟩⟩]⟩
  completeStream := fun _ => .error "stream not mocked"

/-- A completion client whose mocked assistant reply carries no
authorization payload. -/
def plainReplyCap : ClientCapability where
  complete := fun _ => .ok ⟨[⟨⟨"assistant", some "ok"⟩, [], none⟩]⟩
  completeStream := fun _ => .error "stream not mocked"

/-- A completion client mocking the same reply in both modes, with text
free of bare URLs. -/
def consistentCap : ClientCapability where
  complete := fun _ => .ok ⟨[⟨⟨"assistant", some "hello"⟩, [], none⟩]⟩
  completeStream := fun _ => .ok ⟨"assistant", ["hel", "lo"], [], none⟩

/-- A completion client mocking the same URL-bearing reply in both modes. -/
def divergentCap : ClientCapability where
  complete := fun _ => .ok ⟨[⟨⟨"assistant", some "see https://a.b"⟩, [], none⟩]⟩
  completeStream := fun _ => .ok ⟨"assistant", ["see https://a.b"], [], none⟩

/-- Every branch of `handle_chat_interaction` leaves the caller's history as
it was or extends it at the end. -/
lemma chat_history_extends (cb : Option ClientCapability) (model : String)
    (H : List Message) (user : Option String) (stream : Bool) :
    ∃ t, (handle_chat_interaction cb model H user stream).history = H ++ t := by
  cases cb with
  | none => exact ⟨[], by simp [handle_chat_interaction]⟩
  | some client =>
    cases stream with
    | false =>
      cases hr : client.complete ⟨model, H, "generate", user, false⟩ with
      | error e => exact ⟨[], by simp [handle_chat_interaction, hr]⟩
      | ok r =>
        cases hh : r.choices.head? with
        | none => exact ⟨[], by simp [handle_chat_interaction, hr, hh]⟩
        | some c => simp [handle_chat_interaction, hr, hh]
    | true =>
      cases hr : client.completeStream ⟨model, H, "generate", user, true⟩ with
      | error e => exact ⟨[], by simp [handle_chat_interaction, hr]⟩
      | ok r => simp [handle_chat_interaction, hr]

/-- A list is its own `dropLast` extended by whatever its tail end was. -/
lemma dropLast_self_extend {α : Type} (l : List α) :
    ∃ t, l = l.dropLast ++ t :=
  ⟨l.drop (l.length - 1), by
    conv_lhs => rw [← List.take_append_drop (l.length - 1) l]
    rw [List.dropLast_eq_take]⟩

/-- `handle_chat_interaction` with a bound client issues exactly the one
request built from its arguments, in every branch. -/
lemma chat_requests_single (cap : ClientCapability) (model : String)
    (H : List Message) (user : Option String) (stream : Bool) :
    (handle_chat_interaction (some cap) model H user stream).requests
      = [⟨model, H, "generate", user, stream⟩] := by
  cases stream with
  | false =>
    cases hr : cap.complete ⟨model, H, "generate", user, false⟩ with
    | error e => simp [handle_chat_interaction, hr]
    | ok r =>
      cases hh : r.choices.head? with
      | none => simp [handle_chat_interaction, hr, hh]
      | some c => simp [handle_chat_interaction, hr, hh]
  | true =>
    cases hr : cap.completeStream ⟨model, H, "generate", user, true⟩ with
    | error e => simp [handle_chat_interaction, hr]
    | ok r => simp [handle_chat_interaction, hr]

/-- No call to `handle_chat_interaction` issues more than one completion
request. -/
lemma chat_requests_le_one (cb : Option ClientCapability) (model : String)
    (H : List Message) (user : Option String) (stream : Bool) :
    (handle_chat_interaction cb model H user stream).requests.length ≤ 1 := by
  cases cb with
  | none => simp [handle_chat_interaction]
  | some cap => rw [chat_requests_single]; simp

/-- `handle_chat_interaction` never opens a browser. -/
lemma chat_browser_nil (cb : Option ClientCapability) (model : String)
    (H : List Message) (user : Option String) (stream : Bool) :
    (handle_chat_interaction cb model H user stream).browser = [] := by
  cases cb with
  | none => rfl
  | some cap =>
    cases stream with
    | false =>
      cases hr : cap.complete ⟨model, H, "generate", user, false⟩ with
      | error e => simp [handle_chat_interaction, hr]
      | ok r =>
        cases hh : r.choices.head? with
        | none => simp [handle_chat_interaction, hr, hh]
        | some c => simp [handle_chat_interaction, hr, hh]
    | true =>
      cases hr : cap.completeStream ⟨model, H, "generate", user, true⟩ with
      | error e => simp [handle_chat_interaction, hr]
      | ok r => simp [handle_chat_interaction, hr]

/-- `handle_chat_interaction` never emits a `liveMarkdown` event. -/
lemma chat_sink_no_liveMarkdown (cb : Option ClientCapability) (model : String)
    (H : List Message) (user : Option String) (stream : Bool) (m : String) :
    SinkEvent.liveMarkdown m ∉ (handle_chat_interaction cb model H user stream).sink := by
  cases cb with
  | none => simp [handle_chat_interaction]
  | some cap =>
    cases stream with
    | false =>
      cases hr : cap.complete ⟨model, H, "generate", user, false⟩ with
      | error e => simp [handle_chat_interaction, hr]
      | ok r =>
        cases hh : r.choices.head? with
        | none => simp [handle_chat_interaction, hr, hh]
        | some c =>
          have hfalse : (false = true) = False := by simp
          simp only [handle_chat_interaction, hr, hh, hfalse, if_false]
          split
          · simp
          · split <;> simp
    | true =>
      cases hr : cap.completeStream ⟨model, H, "generate", user, true⟩ with
      | error e => simp [handle_chat_interaction, hr]
      | ok r => simp [handle_chat_interaction, hr, handle_streaming_content]

end ArcadeCli

namespace ArcadeCli

/-- C1 (amended): for a non-streamed reply of role `assistant` with no
authorization payload, the result history is the input history followed by
the tool-originated turns and then the final reply turn, whose content is
the reply text with bare URLs normalized to markdown links
(`markdownify_urls`); it equals the reply text itself whenever the reply
contains no bare URL, as in the spec's example. -/
theorem c1_history_shape (cap : ClientCapability) (model : String)
    (H : List Message) (user : Option String) (resp : CompletionResponse)
    (choice : Choice)
    (hc : cap.complete ⟨model, H, "generate", user, false⟩ = .ok resp)
    (h0 : resp.choices.head? = some choice)
    (hrole : choice.message.role = "assistant")
    (hauth : get_tool_authorization choice = none) :
    (handle_chat_interaction (some cap) model H user false).result
      = .ok ⟨H ++ get_tool_messages choice
              ++ [⟨"assistant", markdownify_urls (choice.message.content.getD "")⟩],
             get_tool_messages choice, none⟩
    ∧ (handle_chat_interaction (some cap) model H user false).history
      = H ++ get_tool_messages choice
          ++ [⟨"assistant", markdownify_urls (choice.message.content.getD "")⟩] := by
  constructor <;> simp [handle_chat_interaction, hc, h0, hrole, hauth, truthyAuth]

/-- C1 witness: the spec's example — history `[{user, "hi"}]`, mocked reply
`{assistant, "hello"}`, no tools — yields exactly
`[{user, "hi"}, {assistant, "hello"}]`. -/
theorem c1_history_shape_witness :
    (handle_chat_interaction (some helloReplyCap) "gpt-4o" [⟨"user", "hi"⟩] none false).result
      = .ok ⟨[⟨"user", "hi"⟩, ⟨"assistant", "hello"⟩], [], none⟩ := by
  have h := (c1_history_shape helloReplyCap "gpt-4o" [⟨"user", "hi"⟩] none
    ⟨[⟨⟨"assistant", some "hello"⟩, [], none⟩]⟩ ⟨⟨"assistant", some "hello"⟩, [], none⟩
    rfl rfl rfl rfl).1
  exact h.trans (by decide)

/-- C1 counterexample: with reply text `"see https://a.b"` the final turn's
content is the URL-normalized text, not the reply text itself, so
`result.history` differs from `H ++ tool_messages ++ [{assistant, reply}]`. -/
theorem c1_counterexample :
    (handle_chat_interaction (some urlReplyCap) "gpt-4o" [⟨"user", "hi"⟩] none false).history
      ≠ [⟨"user", "hi"⟩] ++ [] ++ [⟨"assistant", "see https://a.b"⟩] := by
  decide

/-- C2: for a non-streamed assistant reply, a present (non-null)
authorization payload suppresses rendering — nothing is written to the
display sink — while with no payload the assistant reply is rendered. -/
theorem c2_render_suppression (cap : ClientCapability) (model : String)
    (H : List Message) (user : Option String) (resp : CompletionResponse)
    (choice : Choice)
    (hc : cap.complete ⟨model, H, "generate", user, false⟩ = .ok resp)
    (h0 : resp.choices.head? = some choice)
    (hrole : choice.message.role = "assistant") :
    ((get_tool_authorization choice).isSome = true →
        (handle_chat_interaction (some cap) model H user false).sink = [])
    ∧ (get_tool_authorization choice = none →
        (handle_chat_interaction (some cap) model H user false).sink
          = [SinkEvent.printAssistant model
              (markdownify_urls (choice.message.content.getD ""))]) := by
  constructor <;> intro ha <;>
    simp [handle_chat_interaction, hc, h0, hrole, ha, truthyAuth]

/-- C2 witness: with a concrete authorization payload nothing is rendered;
with none, the concrete assistant reply is rendered. -/
theorem c2_render_suppression_witness :
    (handle_chat_interaction (some authReplyCap) "gpt-4o" [] none false).sink = []
    ∧ (handle_chat_interaction (some plainReplyCap) "gpt-4o" [] none false).sink
        = [SinkEvent.printAssistant "gpt-4o" "ok"] := by
  constructor
  · exact (c2_render_suppression authReplyCap "gpt-4o" [] none
      ⟨[⟨⟨"assistant", some "auth needed"⟩, [],
        some ⟨some "https://auth.example/approve"⟩⟩]⟩
      ⟨⟨"assistant", some "auth needed"⟩, [],
        some ⟨some "https://auth.example/approve"⟩⟩ rfl rfl rfl).1 rfl
  · have h := (c2_render_suppression plainReplyCap "gpt-4o" [] none
      ⟨[⟨⟨"assistant", some "ok"⟩, [], none⟩]⟩
      ⟨⟨"assistant", some "ok"⟩, [], none⟩ rfl rfl rfl).2 rfl
    exact h.trans (by decide)

/-- C3: on a history ending in the pending-authorization turn, once the
polling capability reports resolution `handle_tool_authorization` pops
exactly that trailing turn and returns the outcome of a fresh
`handle_chat_interaction` on the truncated history with the same model,
user identity and stream flag. -/
theorem c3_pop_and_replay (cb : Option ClientCapability)
    (auth : AuthorizationResponse) (init : List Message) (lastTurn : Message)
    (model : String) (user : Option String) (stream : Bool) :
    (handle_tool_authorization cb (.ok ()) auth (init ++ [lastTurn]) model user stream).result
      = (handle_chat_interaction cb model init user stream).result
    ∧ (handle_tool_authorization cb (.ok ()) auth (init ++ [lastTurn]) model user stream).history
      = (handle_chat_interaction cb model init user stream).history := by
  constructor <;> simp [handle_tool_authorization, List.dropLast_concat]

/-- C4 (amended): for otherwise identical responses (same role, same
aggregated text, same tool metadata) the streamed and non-streamed paths
return the same `tool_messages`; their histories — in particular the final
message content — agree except that the non-streamed path stores a rendered
assistant reply with bare URLs normalized, so they agree exactly when that
normalization leaves the reply text unchanged. -/
theorem c4_stream_consistency (cap : ClientCapability) (model : String)
    (H : List Message) (user : Option String) (resp : CompletionResponse)
    (sresp : StreamResponse) (choice : Choice)
    (hc : cap.complete ⟨model, H, "generate", user, false⟩ = .ok resp)
    (hs : cap.completeStream ⟨model, H, "generate", user, true⟩ = .ok sresp)
    (h0 : resp.choices.head? = some choice)
    (hrole : sresp.role = choice.message.role)
    (hcontent : String.join sresp.fragments = choice.message.content.getD "")
    (htm : sresp.tool_message_data = get_tool_messages choice)
    (hauth : sresp.tool_authorization_data = get_tool_authorization choice) :
    Except.map (fun r => r.tool_messages)
        (handle_chat_interaction (some cap) model H user true).result
      = Except.map (fun r => r.tool_messages)
          (handle_chat_interaction (some cap) model H user false).result
    ∧ (markdownify_urls (choice.message.content.getD "")
          = choice.message.content.getD "" →
        Except.map (fun r => r.history)
            (handle_chat_interaction (some cap) model H user true).result
          = Except.map (fun r => r.history)
              (handle_chat_interaction (some cap) model H user false).result) := by
  constructor
  · simp [handle_chat_interaction, hc, hs, h0, handle_streaming_content, htm,
      Except.map]
  · intro hfix
    simp only [handle_chat_interaction, hc, hs, h0, handle_streaming_content]
    simp only [Except.map]
    rw [htm, hrole, hcontent]
    by_cases hA : choice.message.role = "assistant"
    · by_cases hAu : (get_tool_authorization choice).isSome
      · simp [hA, hAu, truthyAuth]
      · simp [hA, hAu, truthyAuth, hfix]
    · simp [hA, truthyAuth]

/-- C4 witness: for a concrete URL-free reply mocked identically in both
modes, the two paths agree on `tool_messages` and on the whole history. -/
theorem c4_stream_consistency_witness :
    Except.map (fun r => r.tool_messages)
        (handle_chat_interaction (some consistentCap) "gpt-4o" [] none true).result
      = Except.map (fun r => r.tool_messages)
          (handle_chat_interaction (some consistentCap) "gpt-4o" [] none false).result
    ∧ Except.map (fun r => r.history)
        (handle_chat_interaction (some consistentCap) "gpt-4o" [] none true).result
      = Except.map (fun r => r.history)
          (handle_chat_interaction (some consistentCap) "gpt-4o" [] none false).result := by
  have h := c4_stream_consistency consistentCap "gpt-4o" [] none
    ⟨[⟨⟨"assistant", some "hello"⟩, [], none⟩]⟩ ⟨"assistant", ["hel", "lo"], [], none⟩
    ⟨⟨"assistant", some "hello"⟩, [], none⟩
    rfl rfl rfl rfl (by decide) rfl rfl
  exact ⟨h.1, h.2 (by decide)⟩

/-- C4 counterexample: for the same reply text `"see https://a.b"` mocked
identically in both modes, the final message content of the two paths
differs (the non-streamed path stores the URL-normalized text). -/
theorem c4_counterexample :
    ((handle_chat_interaction (some divergentCap) "gpt-4o" [] none true).history.getLast?).map
        (fun m => m.content)
      ≠ ((handle_chat_interaction (some divergentCap) "gpt-4o" [] none false).history.getLast?).map
          (fun m => m.content) := by
  decide

/-- C5: across both operations the caller's history is only ever extended
at its end: `handle_chat_interaction` always returns the input history with
(possibly empty) turns appended, and `handle_tool_authorization` returns
the input history with at most its trailing turn discarded (the single
corrective pop) and turns appended; no existing turn is reordered or
rewritten. -/
theorem c5_history_append_only :
    (∀ (cb : Option ClientCapability) (model : String) (H : List Message)
        (user : Option String) (stream : Bool),
        ∃ t, (handle_chat_interaction cb model H user stream).history = H ++ t)
    ∧ ∀ (cb : Option ClientCapability) (wait : Except String Unit)
        (auth : AuthorizationResponse) (H : List Message) (model : String)
        (user : Option String) (stream : Bool),
        ∃ t, (handle_tool_authorization cb wait auth H model user stream).history
          = H.dropLast ++ t := by
  refine ⟨chat_history_extends, ?_⟩
  intro cb wait auth H model user stream
  cases wait with
  | error e =>
    obtain ⟨t, ht⟩ := dropLast_self_extend H
    exact ⟨t, by simpa [handle_tool_authorization] using ht⟩
  | ok u =>
    by_cases hH : H.isEmpty
    · refine ⟨H.drop (H.length - 1), ?_⟩
      obtain ⟨t, ht⟩ := dropLast_self_extend H
      simp [handle_tool_authorization, hH]
      simp [List.isEmpty_iff] at hH
      simp [hH]
    · obtain ⟨t, ht⟩ := chat_history_extends cb model H.dropLast user stream
      exact ⟨t, by simp [handle_tool_authorization, hH, ht]⟩

/-- C6: the name `client` read by the body of `handle_chat_interaction`
resolves in no scope (locals, module globals, builtins), so with the
module's actual (empty) binding every call, streamed or not, raises
`NameError` before issuing any completion request or mutating `history`. -/
theorem c6_unbound_client_name :
    resolvesInHandleChatInteraction "client" = false
    ∧ moduleGlobals.contains "client" = false
    ∧ ∀ (model : String) (H : List Message) (user : Option String) (stream : Bool),
        (handle_chat_interaction moduleClientBinding model H user stream).result
            = .error (.nameError "client")
        ∧ (handle_chat_interaction moduleClientBinding model H user stream).requests = []
        ∧ (handle_chat_interaction moduleClientBinding model H user stream).history = H := by
  refine ⟨by decide, by decide, fun model H user stream => ⟨rfl, rfl, rfl⟩⟩

/-- C7: when the completion capability fails, the error propagates
unchanged (wrapped only as the raised capability error), the caller's
history is untouched on the error path, and no call ever issues more than
one completion request (no retry). -/
theorem c7_error_propagates (cap : ClientCapability) (model : String)
    (H : List Message) (user : Option String) (e es : String)
    (hfail : cap.complete ⟨model, H, "generate", user, false⟩ = .error e)
    (hfailS : cap.completeStream ⟨model, H, "generate", user, true⟩ = .error es) :
    ((handle_chat_interaction (some cap) model H user false).result
        = .error (.capabilityError e)
      ∧ (handle_chat_interaction (some cap) model H user false).history = H)
    ∧ ((handle_chat_interaction (some cap) model H user true).result
        = .error (.capabilityError es)
      ∧ (handle_chat_interaction (some cap) model H user true).history = H)
    ∧ ∀ (cb : Option ClientCapability) (model2 : String) (H2 : List Message)
        (user2 : Option String) (stream2 : Bool),
        (handle_chat_interaction cb model2 H2 user2 stream2).requests.length ≤ 1 := by
  refine ⟨⟨?_, ?_⟩, ⟨?_, ?_⟩, chat_requests_le_one⟩ <;>
    simp [handle_chat_interaction, hfail, hfailS]

/-- C7 witness: a concrete failing capability propagates its error, leaves
the history alone, and at most one request is issued. -/
theorem c7_error_propagates_witness :
    (handle_chat_interaction (some failingCap) "gpt-4o" [⟨"user", "hi"⟩] none false).result
      = .error (.capabilityError "rate limited")
    ∧ (handle_chat_interaction (some failingCap) "gpt-4o" [⟨"user", "hi"⟩] none false).history
      = [⟨"user", "hi"⟩]
    ∧ (handle_chat_interaction (some failingCap) "gpt-4o" [⟨"user", "hi"⟩] none false).requests.length ≤ 1 := by
  have h := c7_error_propagates failingCap "gpt-4o" [⟨"user", "hi"⟩] none
    "rate limited" "rate limited" rfl rfl
  exact ⟨h.1.1, h.1.2, h.2.2 (some failingCap) "gpt-4o" [⟨"user", "hi"⟩] none false⟩

/-- C8: when the authorization request carries a (non-empty) URL the
handler opens exactly that URL in the browser and shows a status message
carrying the URL both as a markdown link and as plain text to copy; when
it carries no URL, no browser is opened and no such message is shown. -/
theorem c8_browser_and_message (cb : Option ClientCapability)
    (wait : Except String Unit) (auth : AuthorizationResponse)
    (H : List Message) (model : String) (user : Option String) (stream : Bool)
    (u : String) (hurl : auth.url = some u) (hne : u ≠ "") :
    (handle_tool_authorization cb wait auth H model user stream).browser = [u]
    ∧ SinkEvent.liveMarkdown (authUrlMessage u)
        ∈ (handle_tool_authorization cb wait auth H model user stream).sink
    ∧ authUrlMessage u
        = authUrlMsgHead ++ ("[this link](" ++ u ++ ")") ++ authUrlMsgMid ++ u
    ∧ ∀ auth2 : AuthorizationResponse, auth2.url = none →
        (handle_tool_authorization cb wait auth2 H model user stream).browser = []
        ∧ ∀ m : String, SinkEvent.liveMarkdown m
            ∉ (handle_tool_authorization cb wait auth2 H model user stream).sink := by
  have hbe : (u == "") = false := by simpa using hne
  refine ⟨?_, ?_, rfl, ?_⟩
  · cases wait with
    | error e => simp [handle_tool_authorization, hurl, hbe]
    | ok v =>
      by_cases hH : H.isEmpty <;>
        simp [handle_tool_authorization, hurl, hbe, hH, chat_browser_nil]
  · cases wait with
    | error e => simp [handle_tool_authorization, hurl, hbe]
    | ok v =>
      by_cases hH : H.isEmpty <;>
        simp [handle_tool_authorization, hurl, hbe, hH]
  · intro auth2 h2
    refine ⟨?_, ?_⟩
    · cases wait with
      | error e => simp [handle_tool_authorization, h2]
      | ok v =>
        by_cases hH : H.isEmpty <;>
          simp [handle_tool_authorization, h2, hH, chat_browser_nil]
    · intro m
      cases wait with
      | error e => simp [handle_tool_authorization, h2]
      | ok v =>
        by_cases hH : H.isEmpty <;>
          simp [handle_tool_authorization, h2, hH, chat_sink_no_liveMarkdown]

/-- C8 witness: with a concrete URL-bearing request the browser opens the
URL and the status message is displayed; with a URL-less request the
browser list is empty. -/
theorem c8_browser_and_message_witness :
    (handle_tool_authorization none (.ok ()) ⟨some "https://auth.example/a"⟩
        [⟨"user", "hi"⟩] "gpt-4o" none false).browser = ["https://auth.example/a"]
    ∧ SinkEvent.liveMarkdown (authUrlMessage "https://auth.example/a")
        ∈ (handle_tool_authorization none (.ok ()) ⟨some "https://auth.example/a"⟩
            [⟨"user", "hi"⟩] "gpt-4o" none false).sink
    ∧ (handle_tool_authorization none (.ok ()) (⟨none⟩ : AuthorizationResponse)
        [⟨"user", "hi"⟩] "gpt-4o" none false).browser = [] := by
  have h := c8_browser_and_message none (.ok ()) ⟨some "https://auth.example/a"⟩
    [⟨"user", "hi"⟩] "gpt-4o" none false "https://auth.example/a" rfl (by decide)
  exact ⟨h.1, h.2.1, (h.2.2.2 ⟨none⟩ rfl).1⟩

/-- C9: the claim says each call issues exactly one completion request
carrying the full history, `tool_choice`, user identity and stream flag;
in the module as written the unbound `client` name makes the call raise
`NameError` with no request issued at all.  (With the name bound the body
would indeed issue exactly that one request, third conjunct.) -/
theorem c9_one_request_per_call :
    (handle_chat_interaction moduleClientBinding "gpt-4o" [⟨"user", "hi"⟩] none false).requests = []
    ∧ (handle_chat_interaction moduleClientBinding "gpt-4o" [⟨"user", "hi"⟩] none false).result
        = .error (.nameError "client")
    ∧ ∀ (cap : ClientCapability) (model : String) (H : List Message)
        (user : Option String) (stream : Bool),
        (handle_chat_interaction (some cap) model H user stream).requests
          = [⟨model, H, "generate", user, stream⟩] :=
  ⟨rfl, rfl, chat_requests_single⟩

/-- C10: construction fails with `ValueError` exactly when the lowercased
client type is neither "openai" nor "anthropic"; an "anthropic" client type
(any letter case) succeeds but stores the placeholder string in
`self.client`; a `None` base URL defaults to the OpenAI endpoint. -/
theorem c10_init_contract :
    (∀ (k : String) (b : Option String) (t : String),
        (∃ msg, ModelClientWrapper.init k b t = .error msg)
          ↔ (pyLower t ≠ "openai" ∧ pyLower t ≠ "anthropic"))
    ∧ (∀ (k : String) (b : Option String) (t : String),
        pyLower t = "anthropic" →
          ModelClientWrapper.init k b t
            = .ok ⟨k, resolveBaseUrl b, "anthropic",
                   .placeholderString anthropicPlaceholder⟩)
    ∧ resolveBaseUrl none = "https://api.openai.com/v1" := by
  refine ⟨?_, ?_, rfl⟩
  · intro k b t
    by_cases h1 : pyLower t = "openai"
    · simp [ModelClientWrapper.init, h1]
    · by_cases h2 : pyLower t = "anthropic"
      · simp [ModelClientWrapper.init, h1, h2]
      · simp [ModelClientWrapper.init, h1, h2]
  · intro k b t h
    simp [ModelClientWrapper.init, h]

/-- C10 witness: `client_type="Anthropic"` constructs with the placeholder
client and the default base URL, and `client_type="cohere"` raises. -/
theorem c10_init_contract_witness :
    ModelClientWrapper.init "key" none "Anthropic"
      = .ok ⟨"key", "https://api.openai.com/v1", "anthropic",
             .placeholderString anthropicPlaceholder⟩
    ∧ ∃ msg, ModelClientWrapper.init "key" none "cohere" = .error msg := by
  constructor
  · have h := c10_init_contract.2.1 "key" none "Anthropic" (by decide)
    exact h.trans (by decide)
  · exact (c10_init_contract.1 "key" none "cohere").mpr ⟨by decide, by decide⟩

end ArcadeCli
